import Mathlib

/-
Verification of the taskMe backend's credit-economy and reward-progression
logic against its specification.

The definitions below are shallow embeddings of the Python source:

* `CreditWallet.add_credits` / `CreditWallet.spend_credits`
  (backend/rewards/models.py) — integer credit ledger; exceptions are
  embedded as `Except` errors raised before any field mutation, exactly as
  in the source (all checks precede all assignments).
* `xp_for_level` / `level_from_xp` / `award_xp`
  (backend/rewards/services.py, backend/rewards/models.py) — XP curve and
  XP-award path. `award_xp` passes `challenge=`/`contribution=` keyword
  arguments to `RewardEvent.objects.create` although `RewardEvent` has no
  such fields, so every call raises `TypeError` and its
  `@transaction.atomic` block rolls back; the exception-free continuation
  (with the `RewardEvent.save` hook re-adding `xp_amount`) is embedded but
  unreachable.
* `Streak.check_in` (backend/rewards/models.py) — streak state machine.
  Dates are embedded as integer day numbers, so `(d2 - d1).days` becomes
  integer subtraction.
* `ProofViewSet.review` (backend/challenges/views.py) with
  `ProofReview` upsert semantics (unique on (proof, reviewer)) — peer
  review over one proof, including the `if created: award_xp(...)` call
  that crashes every first-time reviewer's request before the quorum
  check (the view is not atomic, so the committed review row survives).
* `ContributionViewSet.create` and `ChallengeParticipant.update_progress`
  (backend/challenges/views.py, models.py) — contribution intake.
  `DecimalField(decimal_places=2)` values are embedded as integers counting
  hundredths; decimal sums are then exact integer sums.
* `ChallengeViewSet.perform_create` and `CreditService`
  (backend/challenges/views.py, backend/rewards/services.py) — challenge
  creation payment flow.
* `DuelViewSet.complete` (backend/challenges/views.py) — duel settlement.

Python `int` is unbounded, so numeric fields are embedded as `Int`
(or `Nat` where the source only ever holds non-negative values).
Python `100 * (level - 1) ** 1.5` is embedded with exact real semantics:
`⌊100 · (L-1)^1.5⌋ = Nat.sqrt (10000 * (L-1)^3)`.
-/

/-! ## Credit ledger (rewards/models.py: CreditWallet, CreditTransaction) -/

inductive CreditError where
  | invalidAmount
  | insufficientFunds
deriving DecidableEq

structure CreditWallet where
  balance : Int
  lifetime_earned : Int
  lifetime_spent : Int
deriving DecidableEq

structure CreditTransaction where
  amount : Int
  balance_after : Int
deriving DecidableEq

/-- `CreditWallet.add_credits`: reject non-positive amounts, otherwise
increment balance and lifetime_earned and log one transaction. -/
def add_credits (w : CreditWallet) (amount : Int) :
    Except CreditError (CreditWallet × CreditTransaction) :=
  if amount ≤ 0 then .error .invalidAmount
  else
    let w' : CreditWallet :=
      ⟨w.balance + amount, w.lifetime_earned + amount, w.lifetime_spent⟩
    .ok (w', ⟨amount, w'.balance⟩)

/-- `CreditWallet.spend_credits`: reject non-positive amounts and amounts
above the balance, otherwise decrement balance, increment lifetime_spent
and log one transaction with the negated amount. -/
def spend_credits (w : CreditWallet) (amount : Int) :
    Except CreditError (CreditWallet × CreditTransaction) :=
  if amount ≤ 0 then .error .invalidAmount
  else if w.balance < amount then .error .insufficientFunds
  else
    let w' : CreditWallet :=
      ⟨w.balance - amount, w.lifetime_earned, w.lifetime_spent + amount⟩
    .ok (w', ⟨-amount, w'.balance⟩)

inductive WalletOp where
  | add (amount : Int)
  | spend (amount : Int)

/-- One ledger operation; a raised `ValueError` leaves the wallet as it
was, since in the source both methods validate before mutating. -/
def applyOp (w : CreditWallet) (op : WalletOp) : CreditWallet :=
  match op with
  | .add a =>
    match add_credits w a with
    | .ok (w', _) => w'
    | .error _ => w
  | .spend a =>
    match spend_credits w a with
    | .ok (w', _) => w'
    | .error _ => w

/-- A freshly created wallet (all `CreditWallet` fields default to 0). -/
def freshWallet : CreditWallet := ⟨0, 0, 0⟩

/-! ## XP curve and XP awards (rewards/services.py, rewards/models.py) -/

/-- `xp_for_level`: total XP needed to reach a level; 0 for levels ≤ 1,
otherwise `int(100 * (level - 1) ** 1.5)`, embedded with exact real
semantics as `⌊√(10000 · (level-1)³)⌋`. -/
def xp_for_level (level : Nat) : Nat :=
  if level ≤ 1 then 0
  else Nat.sqrt (10000 * (level - 1) ^ 3)

/-- The `while xp_for_level(level + 1) <= xp: level += 1` loop of
`level_from_xp`. It terminates because `level ≤ xp_for_level (level+1)`,
so the loop guard bounds `level` by `xp`. -/
def levelLoop (xp : Nat) (level : Nat) : Nat :=
  if xp_for_level (level + 1) ≤ xp then levelLoop xp (level + 1) else level
termination_by xp + 2 - level
decreasing_by
  rename_i hguard
  have hb : level ≤ xp_for_level (level + 1) := by
    unfold xp_for_level
    by_cases h : level + 1 ≤ 1
    · have hl : level = 0 := by omega
      simp [h, hl]
    · rw [if_neg h]
      refine Nat.le_sqrt.mpr ?_
      have : level * level ≤ 10000 * level ^ 3 := by nlinarith
      simpa using this
  omega

/-- `level_from_xp`: starts at level 1 and climbs while the next level's
threshold is affordable. -/
def level_from_xp (xp : Nat) : Nat := levelLoop xp 1

structure UserState where
  total_points : Nat
  level : Nat
deriving DecidableEq

structure RewardEventRec where
  xp_amount : Nat
  reason : String
deriving DecidableEq

/-- `RewardEvent.save` on a newly inserted row: after the insert it adds
`xp_amount` to the (shared, in-memory) user's `total_points` whenever
`xp_amount` (or `coins_amount`, always 0 on this path) is non-zero, and
saves the user. -/
def reward_event_save (u : UserState) (e : RewardEventRec) : UserState :=
  if e.xp_amount ≠ 0 then ⟨u.total_points + e.xp_amount, u.level⟩ else u

inductive ModelError where
  | typeError
deriving DecidableEq

/-- The field names of the `RewardEvent` model (rewards/models.py):
its source reference is the `source_type`/`source_id` pair; there is no
`challenge` or `contribution` field, and no model holds a foreign key to
`RewardEvent`, so no reverse accessor supplies those names either. -/
def rewardEventFields : List String :=
  ["user", "xp_amount", "coins_amount", "badge", "reason", "reason_detail",
   "source_type", "source_id"]

/-- The keyword arguments `award_xp` passes to
`RewardEvent.objects.create` (rewards/services.py lines 92-99); the
`challenge`/`contribution` keywords are always passed, with `None` as
the default values. -/
def awardXpCreateKwargs : List String :=
  ["user", "xp_amount", "reason", "reason_detail", "challenge",
   "contribution"]

/-- Django `Model.__init__`: a keyword argument that does not name a
model field raises `TypeError` before any instance exists, regardless
of its value. -/
def model_create (fields kwargs : List String) : Except ModelError Unit :=
  if kwargs.all (fun k => fields.contains k) then .ok () else .error .typeError

/-- `award_xp` (rewards/services.py): adds `amount` to `total_points`,
recomputes the level, saves the user, then calls
`RewardEvent.objects.create(..., challenge=..., contribution=...)`.
That call always raises `TypeError` (the kwargs do not match
`RewardEvent`'s fields), and `award_xp` is `@transaction.atomic`, so the
preceding `user.save()` rolls back: an error result means no state
change persists. The `.ok` continuation embeds what the source text
would do if the create succeeded — including the `RewardEvent.save`
hook re-adding `xp_amount` to the same user instance, and the zero-XP
level-up event — but it is unreachable because `awardXpCreateKwargs`
contains `"challenge"`. -/
def award_xp (u : UserState) (amount : Nat) (reason : String) :
    Except ModelError (UserState × List RewardEventRec) :=
  let tp := u.total_points + amount
  let new_level := level_from_xp tp
  let leveled_up := u.level < new_level
  let u1 : UserState := ⟨tp, if leveled_up then new_level else u.level⟩
  match model_create rewardEventFields awardXpCreateKwargs with
  | .error e => .error e
  | .ok _ =>
    let e1 : RewardEventRec := ⟨amount, reason⟩
    let u2 := reward_event_save u1 e1
    if leveled_up then
      let e2 : RewardEventRec := ⟨0, "level_up"⟩
      .ok (reward_event_save u2 e2, [e1, e2])
    else .ok (u2, [e1])

/-! ## Streaks (rewards/models.py: Streak.check_in) -/

structure Streak where
  current_count : Int
  best_count : Int
  grace_used : Int
  max_grace : Int
  last_activity_date : Option Int
deriving DecidableEq

/-- `Streak.check_in`: activity dates are integer day numbers, so the
source's `(activity_date - self.last_activity_date).days` is the integer
difference. Returns the updated streak and the continue/broken flag. -/
def check_in (s : Streak) (d : Int) : Streak × Bool :=
  match s.last_activity_date with
  | none => (⟨1, s.best_count, s.grace_used, s.max_grace, some d⟩, true)
  | some last =>
    let days_diff := d - last
    if days_diff = 0 then (s, true)
    else if days_diff = 1 then
      let c := s.current_count + 1
      (⟨c, if c > s.best_count then c else s.best_count,
        s.grace_used, s.max_grace, some d⟩, true)
    else if days_diff ≤ 1 + s.max_grace - s.grace_used then
      let c := s.current_count + 1
      (⟨c, if c > s.best_count then c else s.best_count,
        s.grace_used + (days_diff - 1), s.max_grace, some d⟩, true)
    else
      (⟨1, s.best_count, 0, s.max_grace, some d⟩, false)

/-- A freshly created streak row: counts and grace default to 0, no
last activity date, with the given `max_grace` (model default 1). -/
def freshStreak (mg : Int) : Streak := ⟨0, 0, 0, mg, none⟩

/-- A sequence of check-ins starting from a fresh streak, keeping the
updated streak state of each call. -/
def runStreak (mg : Int) (dates : List Int) : Streak :=
  dates.foldl (fun s d => (check_in s d).1) (freshStreak mg)

/-! ## Peer-review quorum (challenges/views.py: ProofViewSet.review) -/

inductive CStatus where
  | pending
  | awaitingReview
  | approved
  | rejected
deriving DecidableEq

/-- The cost fields of the `CreditConfig` singleton (model defaults in
parentheses in the source). -/
structure EconomyConfig where
  cost_todo : Int
  cost_streak : Int
  cost_quantified : Int
  cost_duel : Int
  cost_team : Int
  cost_community : Int
  cost_photo_proof : Int
  cost_video_proof : Int
  cost_peer_review : Int
deriving DecidableEq

/-- The source's `CreditConfig` defaults. -/
def defaultEconomyConfig : EconomyConfig := ⟨5, 10, 10, 15, 20, 50, 5, 10, 3⟩

/-- `CreditService.get_challenge_cost`: dictionary lookup of the base
cost with `cost_todo` as the default, plus the proof surcharge. The
source lowercases `challenge_type` first; `challenge_type` here is that
lowercased string. `proof_type = none` covers the absent/falsy case. -/
def get_challenge_cost (cfg : EconomyConfig) (challenge_type : String)
    (proof_type : Option String) : Int :=
  let base_cost :=
    if challenge_type = "todo" then cfg.cost_todo
    else if challenge_type = "task" then cfg.cost_todo
    else if challenge_type = "streak" then cfg.cost_streak
    else if challenge_type = "quantified" then cfg.cost_quantified
    else if challenge_type = "duel" then cfg.cost_duel
    else if challenge_type = "team" then cfg.cost_team
    else if challenge_type = "community" then cfg.cost_community
    else cfg.cost_todo
  let proof_cost :=
    match proof_type with
    | none => 0
    | some pt =>
      if pt = "PHOTO" then cfg.cost_photo_proof
      else if pt = "VIDEO" then cfg.cost_video_proof
      else if pt = "PEER" then cfg.cost_peer_review
      else 0
  base_cost + proof_cost

/-- `CreditService.charge_for_challenge`: recomputes the cost from the
persisted challenge. The `Challenge` model has no `proof_type` field, so
`getattr(challenge, 'proof_type', None)` yields `None` and the charge
uses the base cost only; `can_afford` failure raises before any
mutation, then the wallet is debited. -/
def charge_for_challenge (cfg : EconomyConfig) (w : CreditWallet)
    (challenge_type : String) :
    Except CreditError (CreditWallet × CreditTransaction) :=
  if w.balance < get_challenge_cost cfg challenge_type none then
    .error .insufficientFunds
  else spend_credits w (get_challenge_cost cfg challenge_type none)

/-- Outcome of `ChallengeViewSet.perform_create`: final wallet, whether a
Challenge row remains persisted, the debit transactions created, and
whether the caller saw a rejection. -/
structure CreateResult where
  wallet : CreditWallet
  challenge_persisted : Bool
  txs : List CreditTransaction
  rejected : Bool
deriving DecidableEq

/-- `ChallengeViewSet.perform_create`: check affordability of
`base + surcharge` before saving; on failure raise (no row, no debit).
Otherwise save the challenge, then charge; if the charge raises
`ValueError` the challenge row is deleted and the caller sees a
rejection. -/
def perform_create (cfg : EconomyConfig) (w : CreditWallet)
    (challenge_type : String) (proof_type : Option String) : CreateResult :=
  if w.balance < get_challenge_cost cfg challenge_type proof_type then
    ⟨w, false, [], true⟩
  else
    match charge_for_challenge cfg w challenge_type with
    | .ok (w', tx) => ⟨w', true, [tx], false⟩
    | .error _ => ⟨w, false, [], true⟩

/-! ## Duel completion (challenges/views.py: DuelViewSet.complete) -/

inductive DuelStatus where
  | pending
  | active
  | completed
  | cancelled
deriving DecidableEq

inductive ChallengeStatus where
  | draft
  | upcoming
  | active
  | completed
  | cancelled
deriving DecidableEq

inductive DuelSide where
  | challenger
  | opponent
deriving DecidableEq

structure DuelState where
  duel_status : DuelStatus
  challenge_status : ChallengeStatus
  winner : Option DuelSide
deriving DecidableEq

/-- One `award_xp` call issued by duel completion: recipient, the
`amount` argument and the `reason` argument. -/
structure XpAward where
  side : DuelSide
  amount : Nat
  reason : String
deriving DecidableEq

inductive DuelError where
  | notActive
  | typeError
deriving DecidableEq

/-- `DuelViewSet.complete`: rejected (HTTP 400, before any mutation)
unless the duel is active. Otherwise, inside `with
transaction.atomic():`, the strictly higher `current_progress` side is
made winner, the duel and challenge are saved as completed, and the XP
awards are issued (winner 100 / loser 25, or 50 each on a tie) — but
the first `award_xp` call raises `TypeError` (invalid
`challenge` kwarg to `RewardEvent`), which escapes the atomic block and
rolls back every save: the request fails and no state change or award
persists, embedded as the `.error .typeError` result. The `.ok`
continuation embeds the completion the source text describes; it is
unreachable because `awardXpCreateKwargs` contains `"challenge"`.
Progress values are decimals in hundredths. -/
def duel_complete (d : DuelState)
    (challenger_progress opponent_progress : Int) :
    Except DuelError (DuelState × List XpAward) :=
  if d.duel_status ≠ .active then .error .notActive
  else
    match model_create rewardEventFields awardXpCreateKwargs with
    | .error _ => .error .typeError
    | .ok _ =>
      if challenger_progress > opponent_progress then
        .ok (⟨.completed, .completed, some .challenger⟩,
          [⟨.challenger, 100, "challenge_won"⟩,
           ⟨.opponent, 25, "challenge_completed"⟩])
      else if opponent_progress > challenger_progress then
        .ok (⟨.completed, .completed, some .opponent⟩,
          [⟨.opponent, 100, "challenge_won"⟩,
           ⟨.challenger, 25, "challenge_completed"⟩])
      else
        .ok (⟨.completed, .completed, none⟩,
          [⟨.challenger, 50, "challenge_completed"⟩,
           ⟨.opponent, 50, "challenge_completed"⟩])

/-! ## Contribution intake (challenges/views.py ContributionViewSet.create,
challenges/models.py ChallengeParticipant.update_progress) -/

/-- `ChallengeParticipant.update_progress`: `current_progress` becomes
the sum of the values of the participation's approved contributions
(decimal values in hundredths, so the sum is exact). -/
def update_progress (approved_values : List Int) : Int :=
  approved_values.foldl (fun a b => a + b) 0

/-- `ContributionViewSet.create`, after the active-participation check:
the new contribution is immediately approved — and the progress
recomputed over the approved contributions including it — exactly when
the challenge's stored `required_proof_types` list is empty (falsy) or
equal to the list `["SELF"]`; otherwise it starts pending and the
progress is untouched. Returns the contribution status and the
participation's `current_progress`. -/
def contribution_create (required_proof_types : List String)
    (other_approved_values : List Int) (prior_progress : Int)
    (value : Int) : CStatus × Int :=
  if required_proof_types = [] ∨ required_proof_types = ["SELF"] then
    (CStatus.approved, update_progress (other_approved_values ++ [value]))
  else (CStatus.pending, prior_progress)

/-! ## Theorems -/

/-- Ledger invariant, generalized to any wallet already satisfying it. -/
theorem applyOp_preserves_invariant (w : CreditWallet) (op : WalletOp)
    (h : w.balance = w.lifetime_earned - w.lifetime_spent ∧ 0 ≤ w.balance) :
    (applyOp w op).balance =
        (applyOp w op).lifetime_earned - (applyOp w op).lifetime_spent
      ∧ 0 ≤ (applyOp w op).balance := by
  obtain ⟨h1, h2⟩ := h
  cases op with
  | add a =>
    by_cases ha : a ≤ 0
    · simpa [applyOp, add_credits, ha] using ⟨h1, h2⟩
    · simp [applyOp, add_credits, ha]
      omega
  | spend a =>
    by_cases ha : a ≤ 0
    · simpa [applyOp, spend_credits, ha] using ⟨h1, h2⟩
    · by_cases hb : w.balance < a
      · simpa [applyOp, spend_credits, ha, hb] using ⟨h1, h2⟩
      · simp [applyOp, spend_credits, ha, hb]
        omega

theorem foldl_applyOp_invariant (ops : List WalletOp) (w : CreditWallet)
    (h : w.balance = w.lifetime_earned - w.lifetime_spent ∧ 0 ≤ w.balance) :
    (ops.foldl applyOp w).balance =
        (ops.foldl applyOp w).lifetime_earned - (ops.foldl applyOp w).lifetime_spent
      ∧ 0 ≤ (ops.foldl applyOp w).balance := by
  induction ops generalizing w with
  | nil => simpa using h
  | cons op rest ih =>
    simp only [List.foldl_cons]
    exact ih _ (applyOp_preserves_invariant w op h)

/-- C1: starting from a fresh wallet, after any sequence of add/spend
operations the wallet satisfies `balance = lifetime_earned - lifetime_spent`
and `balance ≥ 0`; a spend exceeding the balance is rejected with the
wallet left unchanged (never clamped) and no transaction produced. -/
theorem wallet_invariant (ops : List WalletOp) :
    ((ops.foldl applyOp freshWallet).balance =
        (ops.foldl applyOp freshWallet).lifetime_earned -
          (ops.foldl applyOp freshWallet).lifetime_spent
      ∧ 0 ≤ (ops.foldl applyOp freshWallet).balance)
    ∧ ∀ w : CreditWallet, ∀ a : Int, w.balance < a →
        applyOp w (.spend a) = w ∧ ∀ r, spend_credits w a ≠ .ok r := by
  refine ⟨foldl_applyOp_invariant ops freshWallet (by simp [freshWallet]), ?_⟩
  intro w a hlt
  have herr : spend_credits w a = .error .invalidAmount ∨
      spend_credits w a = .error .insufficientFunds := by
    by_cases ha : a ≤ 0
    · exact Or.inl (by simp [spend_credits, ha])
    · exact Or.inr (by simp [spend_credits, ha, hlt])
  constructor
  · simp only [applyOp]
    rcases herr with h | h <;> rw [h]
  · intro r hr
    rcases herr with h | h <;> rw [h] at hr <;> simp at hr

/-- Witness for C1 at a concrete operation sequence and a concrete
over-balance spend. -/
theorem wallet_invariant_witness :
    (([WalletOp.add 5, WalletOp.spend 3].foldl applyOp freshWallet).balance =
        ([WalletOp.add 5, WalletOp.spend 3].foldl applyOp freshWallet).lifetime_earned -
          ([WalletOp.add 5, WalletOp.spend 3].foldl applyOp freshWallet).lifetime_spent)
    ∧ applyOp ⟨2, 2, 0⟩ (.spend 5) = (⟨2, 2, 0⟩ : CreditWallet) := by
  refine ⟨(wallet_invariant [WalletOp.add 5, WalletOp.spend 3]).1.1, ?_⟩
  exact ((wallet_invariant []).2 ⟨2, 2, 0⟩ 5 (by norm_num)).1

/-- C4: `spend_credits` fails on `amount ≤ 0` (invalid amount) and on
`amount > balance` (insufficient funds), leaving the wallet unchanged with
no transaction; otherwise it returns the wallet with balance decremented
and lifetime_spent incremented, together with exactly one transaction of
amount `-amount` and `balance_after` equal to the new balance. -/
theorem spend_credits_spec (w : CreditWallet) (a : Int) :
    (a ≤ 0 →
      spend_credits w a = .error .invalidAmount ∧ applyOp w (.spend a) = w)
    ∧ (0 < a → w.balance < a →
      spend_credits w a = .error .insufficientFunds ∧ applyOp w (.spend a) = w)
    ∧ (0 < a → a ≤ w.balance →
      spend_credits w a =
        .ok (⟨w.balance - a, w.lifetime_earned, w.lifetime_spent + a⟩,
             ⟨-a, w.balance - a⟩)) := by
  refine ⟨fun hle => ?_, fun hpos hlt => ?_, fun hpos hle => ?_⟩
  · have h : spend_credits w a = .error .invalidAmount := by
      simp [spend_credits, hle]
    exact ⟨h, by simp only [applyOp]; rw [h]⟩
  · have h : spend_credits w a = .error .insufficientFunds := by
      simp [spend_credits, hlt]
      omega
    exact ⟨h, by simp only [applyOp]; rw [h]⟩
  · have h1 : ¬ a ≤ 0 := by omega
    have h2 : ¬ w.balance < a := by omega
    simp [spend_credits, h1, h2]

/-- Witness for C4 at a concrete wallet in each of the three cases. -/
theorem spend_credits_spec_witness :
    (spend_credits ⟨10, 10, 0⟩ 0 = .error .invalidAmount)
    ∧ (spend_credits ⟨10, 10, 0⟩ 11 = .error .insufficientFunds)
    ∧ (spend_credits ⟨10, 10, 0⟩ 4 =
        .ok (⟨6, 10, 4⟩, ⟨-4, 6⟩)) := by
  refine ⟨((spend_credits_spec ⟨10, 10, 0⟩ 0).1 (by norm_num)).1, ?_, ?_⟩
  · exact ((spend_credits_spec ⟨10, 10, 0⟩ 11).2.1 (by norm_num) (by norm_num)).1
  · have h := (spend_credits_spec ⟨10, 10, 0⟩ 4).2.2 (by norm_num) (by norm_num)
    simpa using h

theorem le_xp_for_level_succ (l : Nat) : l ≤ xp_for_level (l + 1) := by
  unfold xp_for_level
  by_cases h : l + 1 ≤ 1
  · have hl : l = 0 := by omega
    simp [h, hl]
  · rw [if_neg h]
    have h1 : 1 ≤ l := by omega
    refine Nat.le_sqrt.mpr ?_
    have : l * l ≤ 10000 * l ^ 3 := by nlinarith
    simpa using this

theorem xp_for_level_mono {a b : Nat} (hab : a ≤ b) :
    xp_for_level a ≤ xp_for_level b := by
  unfold xp_for_level
  by_cases ha : a ≤ 1
  · simp [ha]
  · rw [if_neg ha, if_neg (by omega)]
    exact Nat.sqrt_le_sqrt
      (Nat.mul_le_mul_left _ (Nat.pow_le_pow_left (by omega) 3))

theorem xp_for_level_lt_succ {a : Nat} (h : 1 ≤ a) :
    xp_for_level a < xp_for_level (a + 1) := by
  by_cases ha : a = 1
  · subst ha
    have h2 : xp_for_level 2 = Nat.sqrt 10000 := by
      unfold xp_for_level
      norm_num
    have hp : 0 < Nat.sqrt 10000 := Nat.sqrt_pos.mpr (by norm_num)
    simp [xp_for_level, h2]
    omega
  · have ha2 : 2 ≤ a := by omega
    unfold xp_for_level
    rw [if_neg (by omega), if_neg (by omega)]
    have hb1 : 1 ≤ a - 1 := by omega
    have hba : a + 1 - 1 = (a - 1) + 1 := by omega
    rw [hba]
    set b := a - 1 with hbdef
    set s := Nat.sqrt (10000 * b ^ 3) with hsdef
    have hs2 : s * s ≤ 10000 * b ^ 3 := Nat.sqrt_le _
    have hsle : s ≤ 100 * b ^ 2 := by
      have h1 : 10000 * b ^ 3 ≤ (100 * b ^ 2) * (100 * b ^ 2) := by nlinarith
      calc s ≤ Nat.sqrt ((100 * b ^ 2) * (100 * b ^ 2)) :=
            Nat.sqrt_le_sqrt h1
        _ = 100 * b ^ 2 := Nat.sqrt_eq _
    refine Nat.lt_of_succ_le (Nat.le_sqrt.mpr ?_)
    have hexp : (b + 1) ^ 3 = b ^ 3 + 3 * b ^ 2 + 3 * b + 1 := by ring
    nlinarith

theorem levelLoop_spec (xp : Nat) :
    ∀ fuel level, xp + 2 - level ≤ fuel → 1 ≤ level →
      xp_for_level level ≤ xp →
      1 ≤ levelLoop xp level ∧ xp_for_level (levelLoop xp level) ≤ xp ∧
        xp < xp_for_level (levelLoop xp level + 1) := by
  intro fuel
  induction fuel with
  | zero =>
    intro level hf hl hle
    have hub : level - 1 ≤ xp_for_level level := by
      have := le_xp_for_level_succ (level - 1)
      have heq : level - 1 + 1 = level := by omega
      rwa [heq] at this
    omega
  | succ fuel ih =>
    intro level hf hl hle
    rw [levelLoop.eq_def]
    by_cases hg : xp_for_level (level + 1) ≤ xp
    · rw [if_pos hg]
      have hub : level ≤ xp := le_trans (le_xp_for_level_succ level) hg
      exact ih (level + 1) (by omega) (by omega) hg
    · rw [if_neg hg]
      exact ⟨hl, hle, by omega⟩

theorem level_from_xp_spec (xp : Nat) :
    1 ≤ level_from_xp xp ∧ xp_for_level (level_from_xp xp) ≤ xp ∧
      xp < xp_for_level (level_from_xp xp + 1) := by
  have h0 : xp_for_level 1 ≤ xp := by simp [xp_for_level]
  exact levelLoop_spec xp (xp + 1) 1 (by omega) (le_refl 1) h0

theorem level_from_xp_eq (xp L : Nat) (_h1 : 1 ≤ L)
    (h2 : xp_for_level L ≤ xp) (h3 : xp < xp_for_level (L + 1)) :
    level_from_xp xp = L := by
  obtain ⟨hm1, hm2, hm3⟩ := level_from_xp_spec xp
  rcases Nat.lt_trichotomy (level_from_xp xp) L with hlt | heq | hgt
  · have : xp_for_level (level_from_xp xp + 1) ≤ xp_for_level L :=
      xp_for_level_mono (by omega)
    omega
  · exact heq
  · have : xp_for_level (L + 1) ≤ xp_for_level (level_from_xp xp) :=
      xp_for_level_mono (by omega)
    omega

/-- C10: the XP curve round-trips at level boundaries: for every level
`L ≥ 1`, `level_from_xp (xp_for_level L) = L`. -/
theorem level_from_xp_round_trip (L : Nat) (h : 1 ≤ L) :
    level_from_xp (xp_for_level L) = L :=
  level_from_xp_eq _ L h (le_refl _) (xp_for_level_lt_succ h)

/-- Witness for C10 at the concrete level 3. -/
theorem level_from_xp_round_trip_witness :
    level_from_xp (xp_for_level 3) = 3 :=
  level_from_xp_round_trip 3 (by norm_num)

theorem sqrt_ten_thousand : Nat.sqrt 10000 = 100 :=
  (Nat.eq_sqrt.mpr ⟨by norm_num, by norm_num⟩).symm

theorem xp_for_level_two : xp_for_level 2 = 100 := by
  unfold xp_for_level
  norm_num [sqrt_ten_thousand]

theorem level_from_xp_fifty : level_from_xp 50 = 1 :=
  level_from_xp_eq 50 1 (le_refl 1) (by simp [xp_for_level])
    (by rw [show (1 : Nat) + 1 = 2 from rfl, xp_for_level_two]; norm_num)

/-- C3 (code bug evidence): every call of `award_xp` — in particular at
a user with 0 XP and amount 50 — raises a `TypeError` from
`RewardEvent.objects.create`'s invalid `challenge`/`contribution`
keywords before any event exists, and the atomic block rolls back the
user save: nothing is added, nothing persists, and no call ever
succeeds. -/
theorem award_xp_always_raises :
    (∀ (u : UserState) (amount : Nat) (reason : String),
      award_xp u amount reason = .error .typeError)
    ∧ award_xp ⟨0, 1⟩ 50 "contribution_approved" = .error .typeError :=
  ⟨fun _ _ _ => rfl, rfl⟩

theorem check_in_last (s : Streak) (d : Int) :
    (check_in s d).1.last_activity_date = some d := by
  unfold check_in
  rcases h : s.last_activity_date with _ | last
  · rfl
  · simp only []
    split_ifs with h0 <;> try rfl
    rw [h]
    congr 1
    omega

/-- C5: full case analysis of `Streak.check_in` on the day gap: first
check-in sets the count to 1; the same day is a no-op (so a second
check-in with the same date is again a no-op returning `true`); a
one-day gap increments the count and updates the best; a gap of `g ≥ 2`
days with `g - 1 ≤ max_grace - grace_used` consumes `g - 1` grace units
and increments the count; any larger gap resets the count to 1 and
`grace_used` to 0 and returns `false`. -/
theorem check_in_cases (s : Streak) (d : Int) :
    (s.last_activity_date = none →
      check_in s d =
        (⟨1, s.best_count, s.grace_used, s.max_grace, some d⟩, true))
    ∧ (∀ last, s.last_activity_date = some last →
        (d - last = 0 → check_in s d = (s, true))
        ∧ (d - last = 1 →
            check_in s d =
              (⟨s.current_count + 1, max s.best_count (s.current_count + 1),
                s.grace_used, s.max_grace, some d⟩, true))
        ∧ (2 ≤ d - last → d - last - 1 ≤ s.max_grace - s.grace_used →
            check_in s d =
              (⟨s.current_count + 1, max s.best_count (s.current_count + 1),
                s.grace_used + (d - last - 1), s.max_grace, some d⟩, true))
        ∧ (2 ≤ d - last → s.max_grace - s.grace_used < d - last - 1 →
            check_in s d = (⟨1, s.best_count, 0, s.max_grace, some d⟩, false)))
    ∧ check_in (check_in s d).1 d = ((check_in s d).1, true) := by
  refine ⟨fun hnone => by simp [check_in, hnone], fun last hlast => ?_, ?_⟩
  · refine ⟨fun h0 => ?_, fun h1 => ?_, fun hg hgr => ?_, fun hg hgr => ?_⟩
    · simp [check_in, hlast, h0]
    · simp only [check_in, hlast, if_neg (by omega : ¬ d - last = 0),
        if_pos h1]
      have hmax : (if s.current_count + 1 > s.best_count then
          s.current_count + 1 else s.best_count) =
          max s.best_count (s.current_count + 1) := by
        rcases le_or_lt (s.current_count + 1) s.best_count with hc | hc
        · rw [if_neg (by omega), max_eq_left hc]
        · rw [if_pos (by omega), max_eq_right (by omega)]
      rw [hmax]
    · simp only [check_in, hlast, if_neg (by omega : ¬ d - last = 0),
        if_neg (by omega : ¬ d - last = 1),
        if_pos (by omega : d - last ≤ 1 + s.max_grace - s.grace_used)]
      have hmax : (if s.current_count + 1 > s.best_count then
          s.current_count + 1 else s.best_count) =
          max s.best_count (s.current_count + 1) := by
        rcases le_or_lt (s.current_count + 1) s.best_count with hc | hc
        · rw [if_neg (by omega), max_eq_left hc]
        · rw [if_pos (by omega), max_eq_right (by omega)]
      rw [hmax]
    · simp only [check_in, hlast, if_neg (by omega : ¬ d - last = 0),
        if_neg (by omega : ¬ d - last = 1),
        if_neg (by omega : ¬ d - last ≤ 1 + s.max_grace - s.grace_used)]
  · have hl : (check_in s d).1.last_activity_date = some d := check_in_last s d
    conv_lhs => rw [check_in, hl]
    simp

/-- Witness for C5: concrete check-ins through the first-check-in case,
the grace case and the reset case. -/
theorem check_in_cases_witness :
    check_in (freshStreak 1) 5 = (⟨1, 0, 0, 1, some 5⟩, true)
    ∧ check_in ⟨3, 3, 0, 1, some 5⟩ 7 = (⟨4, 4, 1, 1, some 7⟩, true)
    ∧ check_in ⟨4, 4, 1, 1, some 7⟩ 10 = (⟨1, 4, 0, 1, some 10⟩, false) := by
  refine ⟨(check_in_cases (freshStreak 1) 5).1 rfl, ?_, ?_⟩
  · have h := ((check_in_cases ⟨3, 3, 0, 1, some 5⟩ 7).2.1 5 rfl).2.2.1
      (by norm_num) (by norm_num)
    simpa using h
  · exact ((check_in_cases ⟨4, 4, 1, 1, some 7⟩ 10).2.1 7 rfl).2.2.2
      (by norm_num) (by norm_num)

theorem check_in_preserves_amended (s : Streak) (d : Int)
    (h : s.current_count ≤ max s.best_count 1 ∧ s.grace_used ≤ s.max_grace
      ∧ 0 ≤ s.max_grace) :
    (check_in s d).1.current_count ≤ max (check_in s d).1.best_count 1
    ∧ (check_in s d).1.grace_used ≤ (check_in s d).1.max_grace
    ∧ 0 ≤ (check_in s d).1.max_grace := by
  obtain ⟨h1, h2, h3⟩ := h
  unfold check_in
  rcases hl : s.last_activity_date with _ | last
  · simp
    omega
  · simp only []
    split_ifs with h0 hone hg <;> simp <;> omega

/-- C9 (counterexample to the claim as stated): the very first check-in
on a fresh streak sets `current_count = 1` but leaves `best_count = 0`,
violating `current_count ≤ best_count`. -/
theorem streak_invariant_counterexample :
    (runStreak 1 [0]).current_count = 1 ∧ (runStreak 1 [0]).best_count = 0
    ∧ ¬ (runStreak 1 [0]).current_count ≤ (runStreak 1 [0]).best_count := by
  refine ⟨rfl, rfl, by decide⟩

/-- C9 (amended): after any sequence of check-ins from a fresh streak
with `max_grace ≥ 0`, the streak satisfies
`current_count ≤ max best_count 1` (equality with `best_count` can fail
only at the value 1, because the first check-in and a post-gap reset set
the count to 1 without touching the best) and `grace_used ≤ max_grace`. -/
theorem streak_invariant_amended (mg : Int) (hmg : 0 ≤ mg)
    (dates : List Int) :
    (runStreak mg dates).current_count ≤ max (runStreak mg dates).best_count 1
    ∧ (runStreak mg dates).grace_used ≤ (runStreak mg dates).max_grace := by
  have main : ∀ l : List Int, ∀ s : Streak,
      (s.current_count ≤ max s.best_count 1 ∧ s.grace_used ≤ s.max_grace
        ∧ 0 ≤ s.max_grace) →
      ((l.foldl (fun s d => (check_in s d).1) s).current_count ≤
          max (l.foldl (fun s d => (check_in s d).1) s).best_count 1
        ∧ (l.foldl (fun s d => (check_in s d).1) s).grace_used ≤
          (l.foldl (fun s d => (check_in s d).1) s).max_grace
        ∧ 0 ≤ (l.foldl (fun s d => (check_in s d).1) s).max_grace) := by
    intro l
    induction l with
    | nil => intro s hs; simpa using hs
    | cons d rest ih =>
      intro s hs
      simp only [List.foldl_cons]
      exact ih _ (check_in_preserves_amended s d hs)
  have h := main dates (freshStreak mg)
    (by simp [freshStreak]; omega)
  exact ⟨h.1, h.2.1⟩

/-- Witness for C9 (amended) at a concrete date sequence. -/
theorem streak_invariant_amended_witness :
    (runStreak 1 [0, 1]).current_count ≤ max (runStreak 1 [0, 1]).best_count 1
    ∧ (runStreak 1 [0, 1]).grace_used ≤ (runStreak 1 [0, 1]).max_grace :=
  streak_invariant_amended 1 (by norm_num) [0, 1]

/-- C6: a user whose balance is below the computed creation cost
(base cost of the challenge type plus the proof surcharge) has the
challenge creation rejected with the wallet unchanged, no Challenge row
persisted and no debit transaction created. -/
theorem create_insufficient_credits (cfg : EconomyConfig)
    (w : CreditWallet) (ct : String) (pt : Option String)
    (h : w.balance < get_challenge_cost cfg ct pt) :
    perform_create cfg w ct pt = ⟨w, false, [], true⟩ := by
  unfold perform_create
  rw [if_pos h]

/-- Witness for C6: a fresh wallet (0 credits) attempting to create a
community challenge (cost 50 under the default config). -/
theorem create_insufficient_credits_witness :
    perform_create defaultEconomyConfig freshWallet "community" none =
      ⟨freshWallet, false, [], true⟩ :=
  create_insufficient_credits defaultEconomyConfig freshWallet
    "community" none (by decide)

/-- C7 (code bug evidence): completing a non-active duel (including an
already-completed one) is rejected with no state change; completing an
active duel — with strictly higher challenger progress (50 vs 30) or
equal progress (40 vs 40) — crashes in `award_xp`'s `TypeError` inside
the atomic block, rolling back the completed-status saves: the duel
never completes and no XP award persists. -/
theorem duel_complete_crashes :
    duel_complete ⟨.active, .active, none⟩ 50 30 = .error .typeError
    ∧ duel_complete ⟨.active, .active, none⟩ 40 40 = .error .typeError
    ∧ duel_complete ⟨.completed, .completed, some .challenger⟩ 50 30 =
        .error .notActive :=
  ⟨rfl, rfl, rfl⟩

/-- C8 (counterexample to the claim as stated): the stored list
`["SELF", "SELF"]` has required-proof-set exactly `{SELF}` (every
element is SELF and it is non-empty), yet the new contribution starts
pending, because the source compares the raw list with `['SELF']`. -/
theorem contribution_self_set_counterexample :
    (∀ x ∈ (["SELF", "SELF"] : List String), x = "SELF")
    ∧ (["SELF", "SELF"] : List String) ≠ []
    ∧ (contribution_create ["SELF", "SELF"] [] 0 100).1 = CStatus.pending := by
  refine ⟨by decide, by decide, ?_⟩
  rfl

/-- C8 (amended): a contribution is immediately approved — with the
participation's `current_progress` recomputed as the sum of the values
of its approved contributions — exactly when the challenge's stored
`required_proof_types` is the empty list or the one-element list
`["SELF"]` (a list merely set-equal to `{SELF}`, such as
`["SELF", "SELF"]`, does not qualify); any other list leaves it pending
with the progress untouched. -/
theorem contribution_create_spec (required : List String)
    (others : List Int) (prior value : Int) :
    ((required = [] ∨ required = ["SELF"]) →
      contribution_create required others prior value =
        (CStatus.approved, update_progress (others ++ [value])))
    ∧ (¬ (required = [] ∨ required = ["SELF"]) →
      contribution_create required others prior value =
        (CStatus.pending, prior)) := by
  constructor <;> intro h <;> simp [contribution_create, h]

/-- Witness for C8 (amended): no required proof types with two earlier
approved contributions, and a PHOTO-requiring challenge. -/
theorem contribution_create_spec_witness :
    contribution_create [] [200, 50] 250 100 =
      (CStatus.approved, update_progress ([200, 50] ++ [100]))
    ∧ contribution_create ["PHOTO"] [] 0 100 = (CStatus.pending, 0) := by
  refine ⟨(contribution_create_spec [] [200, 50] 250 100).1 (Or.inl rfl), ?_⟩
  exact (contribution_create_spec ["PHOTO"] [] 0 100).2 (by decide)
